import Mathlib

/-!
Verification of the pipeline orchestration and planning logic of the
Autonomous Personal Task Planner Bot (autonomous_task_planner.py).

The Python module is embedded shallowly:

* Python dictionaries that flow through the planner (the plan dict) are
  modelled as a structure whose fields are all optional, one field per key
  the source ever writes; `dict.get(k, d)` becomes `Option.getD` and
  `dict.copy()` followed by key assignments becomes a structure update.
* Ambient effects are explicit parameters: `datetime.now()` becomes a
  `now : Nat` argument, the Gemini language-model client becomes a function
  from the prompt payload to `Except PyErr String` (a raised exception from
  the client is the `error` case), and `os.getenv` reads come from an `Env`
  record of optional strings.
* Python `try/except` blocks are embedded with `Except PyErr`: the body of
  each agent execute method is a function `executeTry` returning
  `Except PyErr result`, and the method itself pattern-matches on it,
  turning an error into the dict with status "error" and the message,
  exactly as the source handler builds it.
* Wall-clock `execution_time` fields are omitted: they are real-time
  measurements no claim depends on.
-/

/-- Python exception payloads are modelled by their message string. -/
abbrev PyErr := String

/-- The spec data model for a scheduled slot (the source itself keeps the
`tasks` entry of a plan as an empty list of untyped dicts, so the element
type follows the spec: owning task id, half-open time range in minutes,
and the owning task priority). The conflict detector under verification
ignores this content entirely. -/
structure TimeSlot where
  task_id : String
  start : Nat
  endTime : Nat
  priority : Nat
deriving DecidableEq, Repr

/-- A detected scheduling conflict (the source only ever handles the empty
list of these; the fields follow the spec wording: conflict kind and the
two slot references, with the movable member). -/
structure Conflict where
  kind : String
  slot_a : String
  slot_b : String
  movable : String
deriving DecidableEq, Repr

/-- The priority weight vector held by the planner
(`config.get('priority_weights', ...)`); the Python float literals 0.4,
0.3, 0.2, 0.1 are exact decimals, modelled in ℚ. -/
structure PriorityWeights where
  deadline : ℚ
  importance : ℚ
  duration : ℚ
  user_preference : ℚ
deriving DecidableEq, Repr

/-- The default weight vector from PlannerAgent.__init__. -/
def default_priority_weights : PriorityWeights :=
  { deadline := 0.4, importance := 0.3, duration := 0.2, user_preference := 0.1 }

/-- The plan dictionary that flows through PlannerAgent. One optional field
per key the source ever writes (_draft_plan, _resolve_conflicts,
_apply_learned_rules, _approve_plan, and the error dict `_draft_plan`
returns on exception). A missing key is `none`. -/
structure Plan where
  plan_type : Option String := none
  created_at : Option Nat := none
  ai_generated : Option Bool := none
  plan_details : Option String := none
  tasks : Option (List TimeSlot) := none
  status : Option String := none
  message : Option String := none
  conflicts_resolved : Option Nat := none
  resolution_details : Option String := none
  revised_at : Option Nat := none
  optimization_applied : Option Bool := none
  priority_weights : Option PriorityWeights := none
  approved : Option Bool := none
  approved_at : Option Nat := none
  ready_for_execution : Option Bool := none
deriving DecidableEq, Repr

/-- Weather observation parsed from the OpenWeatherMap response
(WeatherData dataclass); floats are modelled in ℚ. -/
structure WeatherData where
  temperature : ℚ
  condition : String
  humidity : Nat
  wind_speed : ℚ
  forecast : String
  timestamp : Nat
deriving DecidableEq, Repr

/-- The raw data bundle the collector assembles before AI structuring. -/
structure RawData where
  calendar_events : List String
  weather_data : Option WeatherData
  notion_tasks : List String
deriving DecidableEq, Repr

/-- Result of CollectorAgent._structure_data: either the AI-structured dict
(on a successful Gemini call) or the raw data handed back unchanged by the
exception handler. -/
inductive Structured where
  | ai (resp : String) : Structured
  | raw (r : RawData) : Structured
deriving DecidableEq, Repr

/-- The clean data feed built by CollectorAgent._prepare_clean_data. -/
structure CleanData where
  timestamp : Nat
  data_quality : String
  ready_for_planning : Bool
  structured_data : Structured
deriving DecidableEq, Repr

/-- CollectorAgent.execute result dict (success keys and the error-dict
keys as optional fields). -/
structure CollectorResult where
  status : String
  message : Option String := none
  calendar_events : Option Nat := none
  weather_updated : Option Bool := none
  notion_tasks : Option Nat := none
  structured_data : Option CleanData := none
deriving DecidableEq, Repr

/-- PlannerAgent.execute result dict. -/
structure PlannerResult where
  status : String
  message : Option String := none
  plan_approved : Option Bool := none
  conflicts_resolved : Option Nat := none
  optimized_tasks : Option Nat := none
  final_plan : Option Plan := none
deriving DecidableEq, Repr

/-- ExecutorAgent.execute result dict. -/
structure ExecutorResult where
  status : String
  message : Option String := none
  calendar_events_created : Option Nat := none
  notion_tasks_updated : Option Nat := none
  notifications_sent : Option Nat := none
  reminders_scheduled : Option Nat := none
deriving DecidableEq, Repr

/-- ReviewerLearnerAgent.execute result dict (needed as an orchestrator
payload). -/
structure ReviewerResult where
  status : String
  message : Option String := none
  completed_tasks_analyzed : Option Nat := none
  patterns_identified : Option Nat := none
  rules_generated : Option Nat := none
  feedback : Option String := none
deriving DecidableEq, Repr

/-- The TaskData dataclass (the reviewer only ever handles the empty list
of these; float-free fields are kept as declared, the metadata map as a
key-value list). -/
structure TaskData where
  id : String
  title : String
  description : String
  priority : Nat
  deadline : Nat
  status : String
  created_at : Nat
  updated_at : Nat
  metadata : List (String × String)
deriving DecidableEq, Repr

/-- A pattern dict produced by ReviewerLearnerAgent._analyze_patterns. -/
structure PatternEntry where
  pattern_type : String
  insights : String
deriving DecidableEq, Repr

/-- A rule dict produced by ReviewerLearnerAgent._generate_rules. -/
structure RuleEntry where
  rule_type : String
  rule : String
deriving DecidableEq, Repr

/-- A Gemini prompt, identified by its f-string template together with the
data interpolated into it (the rendered text is irrelevant to every
claim, so the payload is kept structured). -/
inductive Prompt where
  | planning (input : CollectorResult) : Prompt
  | conflict_resolution (plan : Plan) (conflicts : List Conflict) : Prompt
  | structuring (raw : RawData) : Prompt
  | pattern_analysis (tasks : List TaskData) : Prompt
  | rule_generation (patterns : List PatternEntry) : Prompt
  | feedback_generation (patterns : List PatternEntry) : Prompt

/-- The behaviour of gemini_client.generate_content: maps a prompt to the
response text, or to the raised exception. -/
abbrev GenFn := Prompt → Except PyErr String

/-- A Gemini client behaviour that always answers with the same text. -/
def gemConst (s : String) : GenFn := fun _ => Except.ok s

/-- ConflictDetector.detect_conflicts: the source body is
`conflicts = []` followed by `return conflicts` (the detection logic is a
placeholder), so every plan maps to the empty conflict list. -/
def ConflictDetector.detect_conflicts (_plan : Plan) : List Conflict := []

/-- PlannerAgent._draft_plan: on a successful Gemini call returns the
drafted plan dict (with an empty task list); the exception handler returns
the error dict instead. -/
def PlannerAgent.draft_plan (gem : GenFn) (now : Nat) (input : CollectorResult) : Plan :=
  match gem (Prompt.planning input) with
  | Except.ok text =>
      { plan_type := some "daily", created_at := some now, ai_generated := some true,
        plan_details := some text, tasks := some [] }
  | Except.error e => { status := some "error", message := some e }

/-- PlannerAgent._resolve_conflicts: on a successful Gemini call copies the
plan and writes conflicts_resolved, resolution_details (the response text)
and revised_at (the current time); the exception handler returns the plan
unchanged. -/
def PlannerAgent.resolve_conflicts (gem : GenFn) (now : Nat) (plan : Plan)
    (conflicts : List Conflict) : Plan :=
  match gem (Prompt.conflict_resolution plan conflicts) with
  | Except.ok text =>
      { plan with conflicts_resolved := some conflicts.length,
                  resolution_details := some text, revised_at := some now }
  | Except.error _ => plan

/-- PlannerAgent._apply_learned_rules. -/
def PlannerAgent.apply_learned_rules (w : PriorityWeights) (plan : Plan) : Plan :=
  { plan with optimization_applied := some true, priority_weights := some w }

/-- PlannerAgent._approve_plan. -/
def PlannerAgent.approve_plan (now : Nat) (plan : Plan) : Plan :=
  { plan with approved := some true, approved_at := some now,
              ready_for_execution := some true }

/-- The try-block body of PlannerAgent.execute. Every statement in the
source body is total (each inner call carries its own exception handler),
so the body never raises. -/
def PlannerAgent.executeTry (gem : GenFn) (w : PriorityWeights) (now : Nat)
    (input : CollectorResult) : Except PyErr PlannerResult :=
  let initial_plan := PlannerAgent.draft_plan gem now input
  let conflicts := ConflictDetector.detect_conflicts initial_plan
  let final_plan :=
    if conflicts.isEmpty then initial_plan
    else PlannerAgent.resolve_conflicts gem now initial_plan conflicts
  let optimized_plan := PlannerAgent.apply_learned_rules w final_plan
  let approved_plan := PlannerAgent.approve_plan now optimized_plan
  Except.ok
    { status := "success", plan_approved := some true,
      conflicts_resolved := some conflicts.length,
      optimized_tasks := some (approved_plan.tasks.getD []).length,
      final_plan := some approved_plan }

/-- PlannerAgent.execute: the try body, with the outer exception handler
converting a raised exception into the error result dict. -/
def PlannerAgent.execute (gem : GenFn) (w : PriorityWeights) (now : Nat)
    (input : CollectorResult) : PlannerResult :=
  match PlannerAgent.executeTry gem w now input with
  | Except.ok r => r
  | Except.error e => { status := "error", message := some e }

/-- CollectorAgent._fetch_calendar_events: placeholder returning the empty
list. -/
def CollectorAgent.fetch_calendar_events : List String := []

/-- CollectorAgent._fetch_weather_data: returns None when the API key is
unset; otherwise the parsed response of the HTTP request, with the
exception handler turning a failed request into None. -/
def CollectorAgent.fetch_weather_data (weather_api_key : Option String)
    (wreq : Except PyErr WeatherData) : Option WeatherData :=
  match weather_api_key with
  | none => none
  | some _ =>
    match wreq with
    | Except.ok w => some w
    | Except.error _ => none

/-- CollectorAgent._fetch_notion_tasks: placeholder returning the empty
list. -/
def CollectorAgent.fetch_notion_tasks : List String := []

/-- CollectorAgent._structure_data: the AI-structured dict on success, the
raw data unchanged on a raised exception. -/
def CollectorAgent.structure_data (gem : GenFn) (raw : RawData) : Structured :=
  match gem (Prompt.structuring raw) with
  | Except.ok text => Structured.ai text
  | Except.error _ => Structured.raw raw

/-- CollectorAgent._prepare_clean_data. -/
def CollectorAgent.prepare_clean_data (now : Nat) (s : Structured) : CleanData :=
  { timestamp := now, data_quality := "high", ready_for_planning := true,
    structured_data := s }

/-- The try-block body of CollectorAgent.execute; every statement is total
(the weather fetch and the AI structuring carry their own handlers), so
the body never raises. -/
def CollectorAgent.executeTry (gem : GenFn) (weather_api_key : Option String)
    (wreq : Except PyErr WeatherData) (now : Nat) : Except PyErr CollectorResult :=
  let calendar_events := CollectorAgent.fetch_calendar_events
  let weather_data := CollectorAgent.fetch_weather_data weather_api_key wreq
  let notion_tasks := CollectorAgent.fetch_notion_tasks
  let structured := CollectorAgent.structure_data gem
    { calendar_events := calendar_events, weather_data := weather_data,
      notion_tasks := notion_tasks }
  let clean := CollectorAgent.prepare_clean_data now structured
  Except.ok
    { status := "success", calendar_events := some calendar_events.length,
      weather_updated := some weather_data.isSome,
      notion_tasks := some notion_tasks.length, structured_data := some clean }

/-- CollectorAgent.execute with its outer exception handler. -/
def CollectorAgent.execute (gem : GenFn) (weather_api_key : Option String)
    (wreq : Except PyErr WeatherData) (now : Nat) : CollectorResult :=
  match CollectorAgent.executeTry gem weather_api_key wreq now with
  | Except.ok r => r
  | Except.error e => { status := "error", message := some e }

/-- The Telegram bot handle held by the executor. -/
structure TelegramBot where
  token : String
deriving DecidableEq, Repr

/-- ExecutorAgent._initialize_telegram: None when the token is unset
(logged as a warning, not an error), the bot handle otherwise. -/
def ExecutorAgent.initialize_telegram (telegram_bot_token : Option String) :
    Option TelegramBot :=
  match telegram_bot_token with
  | none => none
  | some t => some { token := t }

/-- Result dict of ExecutorAgent._update_calendar_events. -/
structure CalendarOps where
  created : Nat
  updated : Nat
deriving DecidableEq, Repr

/-- ExecutorAgent._update_calendar_events: placeholder that reports five
created and three updated events for every plan, consulting no record of
prior runs (the method has no run-history input at all). -/
def ExecutorAgent.update_calendar_events (_plan : Plan) : CalendarOps :=
  { created := 5, updated := 3 }

/-- ExecutorAgent._update_notion_tasks: placeholder reporting eight
updates. -/
def ExecutorAgent.update_notion_tasks (_plan : Plan) : Nat := 8

/-- ExecutorAgent._create_plan_summary (emoji and layout whitespace of the
source template are elided; the `.get` fallbacks are kept). -/
def ExecutorAgent.create_plan_summary (plan : Plan) : String :=
  "Autonomous Task Planner Update " ++
  "Plan Status: " ++ toString (plan.approved.getD false) ++
  " Plan Date: " ++ ((plan.approved_at.map toString).getD "Unknown") ++
  " Tasks Scheduled: " ++ toString (plan.tasks.getD []).length ++
  " Conflicts Resolved: " ++ toString (plan.conflicts_resolved.getD 0) ++
  " Your optimized schedule is ready!"

/-- ExecutorAgent._send_notifications: reports zero notifications when the
bot is unconfigured; otherwise builds the summary and reports one sent
(the inner handler would report zero on a raised exception; in the model
the summary construction is total). -/
def ExecutorAgent.send_notifications (bot : Option TelegramBot) (plan : Plan) : Nat :=
  match bot with
  | none => 0
  | some _ =>
    let _summary := ExecutorAgent.create_plan_summary plan
    1

/-- ExecutorAgent._schedule_reminders: placeholder reporting three
scheduled reminders. -/
def ExecutorAgent.schedule_reminders (_plan : Plan) : Nat := 3

/-- The try-block body of ExecutorAgent.execute; every statement is total,
so the body never raises. -/
def ExecutorAgent.executeTry (bot : Option TelegramBot) (approved_plan : Plan) :
    Except PyErr ExecutorResult :=
  let calendar_results := ExecutorAgent.update_calendar_events approved_plan
  let notion_updated := ExecutorAgent.update_notion_tasks approved_plan
  let sent := ExecutorAgent.send_notifications bot approved_plan
  let scheduled := ExecutorAgent.schedule_reminders approved_plan
  Except.ok
    { status := "success", calendar_events_created := some calendar_results.created,
      notion_tasks_updated := some notion_updated,
      notifications_sent := some sent, reminders_scheduled := some scheduled }

/-- ExecutorAgent.execute with its outer exception handler. -/
def ExecutorAgent.execute (bot : Option TelegramBot) (approved_plan : Plan) :
    ExecutorResult :=
  match ExecutorAgent.executeTry bot approved_plan with
  | Except.ok r => r
  | Except.error e => { status := "error", message := some e }

/-- The process environment slice the module reads via os.getenv. -/
structure Env where
  gemini_api_key : Option String := none
  notion_api_token : Option String := none
  openweather_api_key : Option String := none
  telegram_bot_token : Option String := none
deriving DecidableEq, Repr

/-- The Gemini client handle returned by genai.GenerativeModel. -/
structure GeminiModel where
  model_name : String
deriving DecidableEq, Repr

/-- The Notion client placeholder dict. -/
structure NotionClient where
  token : Option String
deriving DecidableEq, Repr

/-- The Google Calendar client placeholder dict. -/
structure CalendarService where
  credentials : String
deriving DecidableEq, Repr

/-- ReviewerLearnerAgent._initialize_gemini: raises ValueError with this
message when GEMINI_API_KEY is unset, otherwise configures and returns the
gemini-pro model handle. -/
def ReviewerLearnerAgent.initialize_gemini (gemini_api_key : Option String) :
    Except PyErr GeminiModel :=
  match gemini_api_key with
  | none => Except.error "GEMINI_API_KEY environment variable required"
  | some _ => Except.ok { model_name := "gemini-pro" }

/-- CollectorAgent._initialize_gemini (its ValueError message differs from
the reviewer variant). -/
def CollectorAgent.initialize_gemini (gemini_api_key : Option String) :
    Except PyErr GeminiModel :=
  match gemini_api_key with
  | none => Except.error "GEMINI_API_KEY required"
  | some _ => Except.ok { model_name := "gemini-pro" }

/-- PlannerAgent._initialize_gemini. -/
def PlannerAgent.initialize_gemini (gemini_api_key : Option String) :
    Except PyErr GeminiModel :=
  match gemini_api_key with
  | none => Except.error "GEMINI_API_KEY required"
  | some _ => Except.ok { model_name := "gemini-pro" }

/-- The ReviewerLearnerAgent instance state set up by __init__. -/
structure ReviewerLearnerAgent where
  gemini_client : GeminiModel
  notion_client : NotionClient
  calendar_service : CalendarService
deriving DecidableEq, Repr

/-- ReviewerLearnerAgent.__init__: initializes Gemini first (raising when
the key is absent, before any stage execution can be requested), then the
Notion and Calendar placeholders. -/
def ReviewerLearnerAgent.init (env : Env) : Except PyErr ReviewerLearnerAgent := do
  let g ← ReviewerLearnerAgent.initialize_gemini env.gemini_api_key
  Except.ok
    { gemini_client := g, notion_client := { token := env.notion_api_token },
      calendar_service := { credentials := "google_calendar_credentials" } }

/-- The CollectorAgent instance state set up by __init__. -/
structure CollectorAgent where
  weather_api_key : Option String
  calendar_service : CalendarService
  notion_client : NotionClient
  gemini_client : GeminiModel
deriving DecidableEq, Repr

/-- CollectorAgent.__init__: reads the weather key (no error when absent),
builds the Calendar and Notion placeholders, then initializes Gemini,
which raises when the key is absent. -/
def CollectorAgent.init (env : Env) : Except PyErr CollectorAgent := do
  let wkey := env.openweather_api_key
  let cal : CalendarService := { credentials := "google_calendar_credentials" }
  let notion : NotionClient := { token := env.notion_api_token }
  let g ← CollectorAgent.initialize_gemini env.gemini_api_key
  Except.ok
    { weather_api_key := wkey, calendar_service := cal, notion_client := notion,
      gemini_client := g }

/-- The PlannerAgent instance state set up by __init__. -/
structure PlannerAgent where
  gemini_client : GeminiModel
  priority_weights : PriorityWeights
deriving DecidableEq, Repr

/-- PlannerAgent.__init__: initializes Gemini (raising when the key is
absent), then takes the priority weights from the config with the default
fallback. -/
def PlannerAgent.init (env : Env) (config_priority_weights : Option PriorityWeights) :
    Except PyErr PlannerAgent := do
  let g ← PlannerAgent.initialize_gemini env.gemini_api_key
  Except.ok
    { gemini_client := g,
      priority_weights := config_priority_weights.getD default_priority_weights }

/-- The ExecutorAgent instance state set up by __init__ (its construction
never raises: a missing Telegram token only logs a warning and stores
None). -/
structure ExecutorAgent where
  calendar_service : CalendarService
  notion_client : NotionClient
  telegram_bot : Option TelegramBot
deriving DecidableEq, Repr

/-- ExecutorAgent.__init__. -/
def ExecutorAgent.init (env : Env) : ExecutorAgent :=
  { calendar_service := { credentials := "google_calendar_credentials" },
    notion_client := { token := env.notion_api_token },
    telegram_bot := ExecutorAgent.initialize_telegram env.telegram_bot_token }

/-- The per-stage entries of the results dict built by
run_full_workflow: a stage that was never invoked has no entry (None
here). -/
structure WorkflowResults where
  collector : CollectorResult
  planner : Option PlannerResult := none
  executor : Option ExecutorResult := none
deriving DecidableEq, Repr

/-- The dict returned by run_full_workflow. -/
structure WorkflowReport where
  workflow_status : String
  timestamp : Nat
  results : WorkflowResults
deriving DecidableEq, Repr

/-- AutonomousTaskPlanner.run_full_workflow, parametrized by the execute
behaviour of the three chained agents (the orchestrator calls
self.collector_agent.execute() and so on; here each call site is the
corresponding argument). The planner runs only when the collector result
has status "success"; the executor runs only when the planner result has
status "success" and a truthy plan_approved entry, and receives the
final_plan entry of the planner result. -/
def AutonomousTaskPlanner.run_full_workflow (now : Nat) (col : CollectorResult)
    (pln : CollectorResult → PlannerResult) (exe : Plan → ExecutorResult) :
    WorkflowReport :=
  let results₀ : WorkflowResults := { collector := col }
  let results :=
    if col.status = "success" then
      let pr := pln col
      if pr.status = "success" ∧ pr.plan_approved.getD false = true then
        { results₀ with planner := some pr,
                        executor := some (exe (pr.final_plan.getD {})) }
      else { results₀ with planner := some pr }
    else results₀
  { workflow_status := "completed", timestamp := now, results := results }

/-- The value returned by one call of AutonomousTaskPlanner.run_agent:
one of the four agent result dicts. -/
inductive AgentResult where
  | reviewerR (r : ReviewerResult) : AgentResult
  | collectorR (r : CollectorResult) : AgentResult
  | plannerR (r : PlannerResult) : AgentResult
  | executorR (r : ExecutorResult) : AgentResult
deriving DecidableEq, Repr

/-- AutonomousTaskPlanner.run_agent, parametrized like run_full_workflow by
the agents execute behaviour. A branch that returns a dict is
`Except.ok (some r)`; the executor branch falls off the end of the method
when the planner result has no truthy plan_approved entry, which in Python
returns None: `Except.ok none`; an unknown agent name raises ValueError:
`Except.error`. -/
def AutonomousTaskPlanner.run_agent (rv : ReviewerResult) (col : CollectorResult)
    (pln : CollectorResult → PlannerResult) (exe : Plan → ExecutorResult)
    (agent_name : String) : Except PyErr (Option AgentResult) :=
  if agent_name = "reviewer" then Except.ok (some (AgentResult.reviewerR rv))
  else if agent_name = "collector" then Except.ok (some (AgentResult.collectorR col))
  else if agent_name = "planner" then Except.ok (some (AgentResult.plannerR (pln col)))
  else if agent_name = "executor" then
    let planner_result := pln col
    if planner_result.plan_approved.getD false = true then
      Except.ok (some (AgentResult.executorR (exe (planner_result.final_plan.getD {}))))
    else Except.ok none
  else Except.error ("Unknown agent: " ++ agent_name)

/-- ReviewerLearnerAgent._fetch_completed_tasks: placeholder returning the
empty list. -/
def ReviewerLearnerAgent.fetch_completed_tasks : List TaskData := []

/-- ReviewerLearnerAgent._analyze_patterns: on a successful Gemini call
returns the one-element pattern list holding the response text; the
exception handler returns the empty list. -/
def ReviewerLearnerAgent.analyze_patterns (gem : GenFn) (tasks : List TaskData) :
    List PatternEntry :=
  match gem (Prompt.pattern_analysis tasks) with
  | Except.ok text => [{ pattern_type := "productivity", insights := text }]
  | Except.error _ => []

/-- ReviewerLearnerAgent._generate_rules: on a successful Gemini call
returns the one-element rule list holding the response text; the exception
handler returns the empty list. -/
def ReviewerLearnerAgent.generate_rules (gem : GenFn)
    (patterns : List PatternEntry) : List RuleEntry :=
  match gem (Prompt.rule_generation patterns) with
  | Except.ok text => [{ rule_type := "scheduling", rule := text }]
  | Except.error _ => []

/-- ReviewerLearnerAgent._store_rules: placeholder returning True. -/
def ReviewerLearnerAgent.store_rules (_rules : List RuleEntry) : Bool := true

/-- ReviewerLearnerAgent._generate_feedback: the response text on success,
the fixed fallback sentence from the exception handler otherwise. -/
def ReviewerLearnerAgent.generate_feedback (gem : GenFn)
    (patterns : List PatternEntry) : String :=
  match gem (Prompt.feedback_generation patterns) with
  | Except.ok text => text
  | Except.error _ => "Unable to generate feedback at this time."

/-- The try-block body of ReviewerLearnerAgent.execute; every statement is
total (each Gemini call carries its own exception handler), so the body
never raises. -/
def ReviewerLearnerAgent.executeTry (gem : GenFn) : Except PyErr ReviewerResult :=
  let completed_tasks := ReviewerLearnerAgent.fetch_completed_tasks
  let patterns := ReviewerLearnerAgent.analyze_patterns gem completed_tasks
  let rules := ReviewerLearnerAgent.generate_rules gem patterns
  let _stored := ReviewerLearnerAgent.store_rules rules
  let feedback := ReviewerLearnerAgent.generate_feedback gem patterns
  Except.ok
    { status := "success",
      completed_tasks_analyzed := some completed_tasks.length,
      patterns_identified := some patterns.length,
      rules_generated := some rules.length, feedback := some feedback }

/-- ReviewerLearnerAgent.execute with its outer exception handler. -/
def ReviewerLearnerAgent.execute (gem : GenFn) : ReviewerResult :=
  match ReviewerLearnerAgent.executeTry gem with
  | Except.ok r => r
  | Except.error e => { status := "error", message := some e }

/-- The higher-priority slot of the spec scenario: [9:00,10:00) as minutes
of the day, priority 5. -/
def slotHighPriority : TimeSlot :=
  { task_id := "task-a", start := 540, endTime := 600, priority := 5 }

/-- The lower-priority slot of the spec scenario: [9:30,10:30), priority 2,
overlapping slotHighPriority. -/
def slotLowPriority : TimeSlot :=
  { task_id := "task-b", start := 570, endTime := 630, priority := 2 }

/-- A plan draft whose task list holds the two overlapping slots. -/
def overlapDraft : Plan := { tasks := some [slotHighPriority, slotLowPriority] }

/-- The TimeOverlap conflict the spec scenario expects for the two slots. -/
def conflictFix : Conflict :=
  { kind := "TimeOverlap", slot_a := "task-a", slot_b := "task-b", movable := "task-b" }

/-- A collector result that reports failure. -/
def colErrFix : CollectorResult := { status := "error", message := some "collector down" }

/-- A collector result that reports success. -/
def colOkFix : CollectorResult := { status := "success" }

/-- A planner behaviour that approves a plan for every input. -/
def plnOkFix : CollectorResult → PlannerResult := fun _ =>
  { status := "success", plan_approved := some true, conflicts_resolved := some 0,
    optimized_tasks := some 0, final_plan := some {} }

/-- A planner behaviour that reports failure (its result dict has no
plan_approved entry, like the error dict the source planner returns). -/
def plnErrFix : CollectorResult → PlannerResult := fun _ =>
  { status := "error", message := some "planner down" }

/-- An executor behaviour returning the placeholder counts of the source. -/
def exeFix : Plan → ExecutorResult := fun _ =>
  { status := "success", calendar_events_created := some 5,
    notion_tasks_updated := some 8, notifications_sent := some 0,
    reminders_scheduled := some 3 }

/-- A reviewer result fixture. -/
def rvFix : ReviewerResult := { status := "success" }

/-- An approved plan obtained by running the planner pipeline on a fixed
Gemini answer. -/
def approvedPlanFix : Plan :=
  PlannerAgent.approve_plan 0 (PlannerAgent.apply_learned_rules
    default_priority_weights
    (PlannerAgent.draft_plan (gemConst "plan text") 0 colOkFix))

/-- Claim C1: the two scenario slots do overlap in time and the
lower-priority slot has the lower priority ordinal, yet
ConflictDetector.detect_conflicts returns the empty conflict list on a
draft containing them: the placeholder detector reports no TimeOverlap
conflict for any draft, against the documented intent of the claim. -/
theorem detect_conflicts_ignores_overlap :
    slotHighPriority.start < slotLowPriority.endTime ∧
    slotLowPriority.start < slotHighPriority.endTime ∧
    slotLowPriority.priority < slotHighPriority.priority ∧
    ConflictDetector.detect_conflicts overlapDraft = [] :=
  ⟨by decide, by decide, by decide, rfl⟩

/-- Claim C2: for every draft, every conflict list handed to the resolver,
every Gemini behaviour and every timestamp, running the conflict detector
on the plan returned by PlannerAgent._resolve_conflicts yields the empty
conflict set — a resolved plan is conflict-free (the source detector maps
every plan, resolved or not, to the empty list). -/
theorem detect_after_resolve_empty (gem : GenFn) (now : Nat) (d : Plan)
    (conflicts : List Conflict) :
    ConflictDetector.detect_conflicts
      (PlannerAgent.resolve_conflicts gem now d conflicts) = [] := rfl

/-- Claim C3: PlannerAgent.execute returns status "success" with
plan_approved True for every input, every Gemini behaviour (including a
failing one) and every timestamp: no attempt budget exists, no
NoFeasibleSchedule planning error is ever produced, and the planning stage
always reports an approved plan. -/
theorem planner_always_approves (gem : GenFn) (w : PriorityWeights) (now : Nat)
    (input : CollectorResult) :
    (PlannerAgent.execute gem w now input).status = "success" ∧
    (PlannerAgent.execute gem w now input).plan_approved = some true :=
  ⟨rfl, rfl⟩

/-- Claim C4: in run_full_workflow, when the collector result does not have
status "success" the planner and executor entries of the results dict stay
absent (those stages are never invoked); and when the planner result does
not have status "success", or its plan_approved entry is falsy, the
executor entry stays absent — an unapproved plan is never executed. -/
theorem workflow_stage_gating (now : Nat) (col : CollectorResult)
    (pln : CollectorResult → PlannerResult) (exe : Plan → ExecutorResult) :
    (col.status ≠ "success" →
      (AutonomousTaskPlanner.run_full_workflow now col pln exe).results.planner = none ∧
      (AutonomousTaskPlanner.run_full_workflow now col pln exe).results.executor = none) ∧
    ((pln col).status ≠ "success" ∨ (pln col).plan_approved.getD false = false →
      (AutonomousTaskPlanner.run_full_workflow now col pln exe).results.executor = none) := by
  constructor
  · intro h
    simp [AutonomousTaskPlanner.run_full_workflow, h]
  · intro h
    by_cases hc : col.status = "success"
    · have hcond : ¬((pln col).status = "success" ∧
          (pln col).plan_approved.getD false = true) := by
        rcases h with h | h
        · exact fun hx => h hx.1
        · exact fun hx => by rw [h] at hx; exact Bool.false_ne_true hx.2
      simp [AutonomousTaskPlanner.run_full_workflow, hc, hcond]
    · simp [AutonomousTaskPlanner.run_full_workflow, hc]

/-- Witness for C4: on a failing collector the planner and executor entries
are absent, and on a failing planner the executor entry is absent. -/
theorem workflow_stage_gating_witness :
    colErrFix.status ≠ "success" ∧
    (AutonomousTaskPlanner.run_full_workflow 0 colErrFix plnOkFix exeFix).results.planner = none ∧
    (AutonomousTaskPlanner.run_full_workflow 0 colErrFix plnOkFix exeFix).results.executor = none ∧
    (plnErrFix colOkFix).status ≠ "success" ∧
    (AutonomousTaskPlanner.run_full_workflow 0 colOkFix plnErrFix exeFix).results.executor = none := by
  refine ⟨by decide, ?_, ?_, by decide, ?_⟩
  · exact ((workflow_stage_gating 0 colErrFix plnOkFix exeFix).1 (by decide)).1
  · exact ((workflow_stage_gating 0 colErrFix plnOkFix exeFix).1 (by decide)).2
  · exact (workflow_stage_gating 0 colOkFix plnErrFix exeFix).2 (Or.inl (by decide))

/-- Claim C5 counterexample: two resolver runs on the identical draft, the
identical conflict set and the identical Gemini answer, differing only in
the ambient current time, return different plans — the output embeds
datetime.now() in its revised_at entry, so identical (draft, conflicts,
rules) inputs do not guarantee identical outputs. -/
theorem resolve_conflicts_not_input_deterministic_cex :
    PlannerAgent.resolve_conflicts (gemConst "revised") 540 {} [conflictFix] ≠
    PlannerAgent.resolve_conflicts (gemConst "revised") 600 {} [conflictFix] := by
  intro h
  have h2 := congrArg Plan.revised_at h
  simp [PlannerAgent.resolve_conflicts, gemConst] at h2

/-- Claim C5 amended: PlannerAgent._resolve_conflicts is deterministic as a
function of the draft, the conflict list, the language-model response and
the current timestamp; for a fixed draft, conflict list and response, two
runs return identical plans exactly when their timestamps coincide. -/
theorem resolve_conflicts_determined_by_ambient_inputs (p : Plan)
    (c : List Conflict) (t : String) (n₁ n₂ : Nat) :
    (PlannerAgent.resolve_conflicts (gemConst t) n₁ p c =
      PlannerAgent.resolve_conflicts (gemConst t) n₂ p c) ↔ n₁ = n₂ := by
  constructor
  · intro h
    have h2 := congrArg Plan.revised_at h
    simpa [PlannerAgent.resolve_conflicts, gemConst] using h2
  · intro h
    rw [h]

/-- Claim C6: ExecutorAgent.execute consults no record of prior runs (it has
no run-history input at all), so a retry on the same approved plan repeats
the calendar mutations: the call reports five created calendar events, not
zero, and a second identical call reports five again. -/
theorem executor_second_run_creates_again :
    (ExecutorAgent.execute none approvedPlanFix).calendar_events_created = some 5 ∧
    (ExecutorAgent.execute none approvedPlanFix).calendar_events_created ≠ some 0 :=
  ⟨rfl, by decide⟩

/-- Claim C7: with no Telegram token configured, _initialize_telegram yields
no bot handle and ExecutorAgent.execute still completes with status
"success", reporting exactly zero notifications sent. -/
theorem executor_unconfigured_notifier_degrades (plan : Plan) :
    (ExecutorAgent.execute (ExecutorAgent.initialize_telegram none) plan).status =
      "success" ∧
    (ExecutorAgent.execute (ExecutorAgent.initialize_telegram none) plan).notifications_sent =
      some 0 :=
  ⟨rfl, rfl⟩

/-- Claim C8: when GEMINI_API_KEY is absent from the environment, the
constructors of the Reviewer, Collector and Planner agents all fail with
the raised ValueError (so no agent instance exists on which any stage
could execute). -/
theorem missing_gemini_key_fails_construction (env : Env)
    (w : Option PriorityWeights) (h : env.gemini_api_key = none) :
    ReviewerLearnerAgent.init env =
      Except.error "GEMINI_API_KEY environment variable required" ∧
    CollectorAgent.init env = Except.error "GEMINI_API_KEY required" ∧
    PlannerAgent.init env w = Except.error "GEMINI_API_KEY required" := by
  refine ⟨?_, ?_, ?_⟩ <;>
    simp [ReviewerLearnerAgent.init, CollectorAgent.init, PlannerAgent.init,
      ReviewerLearnerAgent.initialize_gemini, CollectorAgent.initialize_gemini,
      PlannerAgent.initialize_gemini, h, Bind.bind, Except.bind]

/-- Witness for C8: the empty environment has no Gemini key and all three
constructions fail with the raised errors. -/
theorem missing_gemini_key_fails_construction_witness :
    ({} : Env).gemini_api_key = none ∧
    (ReviewerLearnerAgent.init {} =
      Except.error "GEMINI_API_KEY environment variable required" ∧
    CollectorAgent.init {} = Except.error "GEMINI_API_KEY required" ∧
    PlannerAgent.init {} none = Except.error "GEMINI_API_KEY required") :=
  ⟨rfl, missing_gemini_key_fails_construction {} none rfl⟩

/-- Claim C9: for every modelled behaviour of the external collaborators,
the try-block body of each of the four agent execute methods (reviewer,
collector, planner, executor) returns normally (no exception reaches the
outer handler, every fallible call being guarded by an inner handler), the
method returns that result unchanged, and the returned dict carries status
"success" or "error" — no agent execute method propagates an exception to
its caller. -/
theorem agent_execute_never_propagates (gem : GenFn) (w : PriorityWeights)
    (now : Nat) (input : CollectorResult) (wkey : Option String)
    (wreq : Except PyErr WeatherData) (bot : Option TelegramBot) (plan : Plan) :
    (∃ r, ReviewerLearnerAgent.executeTry gem = Except.ok r ∧
      ReviewerLearnerAgent.execute gem = r ∧
      (r.status = "success" ∨ r.status = "error")) ∧
    (∃ r, PlannerAgent.executeTry gem w now input = Except.ok r ∧
      PlannerAgent.execute gem w now input = r ∧
      (r.status = "success" ∨ r.status = "error")) ∧
    (∃ r, CollectorAgent.executeTry gem wkey wreq now = Except.ok r ∧
      CollectorAgent.execute gem wkey wreq now = r ∧
      (r.status = "success" ∨ r.status = "error")) ∧
    (∃ r, ExecutorAgent.executeTry bot plan = Except.ok r ∧
      ExecutorAgent.execute bot plan = r ∧
      (r.status = "success" ∨ r.status = "error")) :=
  ⟨⟨_, rfl, rfl, Or.inl rfl⟩, ⟨_, rfl, rfl, Or.inl rfl⟩, ⟨_, rfl, rfl, Or.inl rfl⟩,
    ⟨_, rfl, rfl, Or.inl rfl⟩⟩

/-- Claim C10: when run_agent is called with agent name "executor" and the
planner result has no truthy plan_approved entry, the method falls off the
end and returns None — Except.ok none here — rather than an error or any
stage report. -/
theorem run_agent_executor_unapproved_returns_none (rv : ReviewerResult)
    (col : CollectorResult) (pln : CollectorResult → PlannerResult)
    (exe : Plan → ExecutorResult)
    (h : (pln col).plan_approved.getD false = false) :
    AutonomousTaskPlanner.run_agent rv col pln exe "executor" = Except.ok none := by
  simp [AutonomousTaskPlanner.run_agent, h]

/-- Witness for C10: with the failing planner fixture (whose result has no
plan_approved entry), run_agent on "executor" returns Except.ok none. -/
theorem run_agent_executor_unapproved_returns_none_witness :
    (plnErrFix colOkFix).plan_approved.getD false = false ∧
    AutonomousTaskPlanner.run_agent rvFix colOkFix plnErrFix exeFix "executor" =
      Except.ok none :=
  ⟨rfl, run_agent_executor_unapproved_returns_none rvFix colOkFix plnErrFix exeFix rfl⟩
